import Mathlib

/-!
Shallow embedding of the chatbot conversation-orchestration core of the
`tekber-a-7` repository (FastAPI backend under `backend/src/app`):

* `models/chatbot.py` — `MessageRole`, `ConversationStatus`, and the
  persisted `ChatConversation` / `ChatMessage` rows;
* `crud/crud_chatbot.py` — `CRUDChatConversationExt` /
  `CRUDChatMessageExt` store operations (`update_conversation_stats`,
  `create_with_conversation_update`, `get_recent_context`,
  `get_with_messages`);
* `core/services/openrouter_service.py` — `OpenRouterService`
  (`send_chat_request`, `get_available_models`, `_calculate_cost`,
  `_get_default_models`, `health_check`);
* `api/v1/chatbot.py` — the route handlers `send_chat_message`,
  `get_conversation_detail`, `update_conversation`, `delete_conversation`.

The database is modelled as an explicit state (`Db`) holding the
conversation and message tables plus id/clock counters; each HTTP handler
becomes a function from request data and database state to a result
(`Except HttpError _`) together with the successor state.  The remote
gateway transport outcome is passed in as an explicit
`Except String ProviderResponse` parameter.
-/

set_option linter.unusedVariables false

namespace Chatbot

/-- `MessageRole` enum from `models/chatbot.py`. -/
inductive MessageRole where
  | user
  | assistant
  | system
deriving DecidableEq, Repr

/-- `.value` of a `MessageRole` (string-backed enum). -/
def MessageRole.value : MessageRole → String
  | .user => "user"
  | .assistant => "assistant"
  | .system => "system"

/-- `ConversationStatus` enum from `models/chatbot.py`. -/
inductive ConversationStatus where
  | active
  | archived
  | deleted
deriving DecidableEq, Repr

/-- A persisted chat-conversation row, with the aggregate-statistics
columns (`message_count`, `last_message_at`) that
`crud_chatbot.update_conversation_stats` writes and the API read paths
(`get_conversation_detail`, `get_user_conversations`) select. -/
structure Conv where
  id : Nat
  user_id : Nat
  title : String
  status : ConversationStatus
  model_name : String
  system_prompt : Option String
  message_count : Nat
  last_message_at : Option Nat
  updated_at : Option Nat
deriving DecidableEq, Repr

/-- A persisted chat-message row (`ChatMessage` in `models/chatbot.py`);
`created_at` is an abstract timestamp, `is_deleted` the soft-delete flag. -/
structure Msg where
  id : Nat
  conversation_id : Nat
  role : MessageRole
  content : String
  created_at : Nat
  is_deleted : Bool
deriving DecidableEq, Repr

/-- Database state: the two tables plus the id allocators and a clock
supplying `created_at` / `updated_at` timestamps. -/
structure Db where
  convs : List Conv
  msgs : List Msg
  next_conv_id : Nat
  next_msg_id : Nat
  now : Nat
deriving DecidableEq, Repr

/-- `FastCRUD.get(db, id=cid)` on the conversation table: first row whose
primary key matches. -/
def getConv (db : Db) (cid : Nat) : Option Conv :=
  db.convs.find? (fun c => c.id == cid)

/-- All message rows of one conversation
(`where ChatMessage.conversation_id == conversation_id`); note that no
`is_deleted` condition is applied anywhere in `crud_chatbot.py`. -/
def convMsgs (db : Db) (cid : Nat) : List Msg :=
  db.msgs.filter (fun m => m.conversation_id == cid)

/-- `FastCRUD.update(db, object_id=cid, object_data=...)`: apply the
column assignment `g` to every conversation row whose primary key is
`cid`. -/
def setConvFields (db : Db) (cid : Nat) (g : Conv → Conv) : Db :=
  { db with convs := db.convs.map (fun c => if c.id == cid then g c else c) }

/-- Insert a message into a list kept newest-first by `created_at`. -/
def insertDesc (m : Msg) : List Msg → List Msg
  | [] => [m]
  | x :: xs =>
    if x.created_at ≤ m.created_at then m :: x :: xs else x :: insertDesc m xs

/-- `order_by desc(ChatMessage.created_at)`. -/
def sortDesc : List Msg → List Msg
  | [] => []
  | x :: xs => insertDesc x (sortDesc xs)

/-- `CRUDChatMessageExt.get_recent_context`: the conversation's messages
ordered newest-first, truncated to `limit`. -/
def get_recent_context (db : Db) (cid : Nat) (limit : Nat) : List Msg :=
  (sortDesc (convMsgs db cid)).take limit

/-- One `{"role": ..., "content": ...}` entry of the message list sent
upstream. -/
structure ApiMsg where
  role : String
  content : String
deriving DecidableEq, Repr

/-- One element of the provider's `choices` array; `content` is
`choices[i]["message"]["content"]` when present (the code reads it with
`choice.get("message", {}).get("content", "")`). -/
structure Choice where
  content : Option String
deriving DecidableEq, Repr

/-- A parsed provider chat-completion response body. -/
structure ProviderResponse where
  model : Option String
  choices : List Choice
  prompt_tokens : Nat
  completion_tokens : Nat
deriving DecidableEq, Repr

/-- `choices[0].get("message", {}).get("content", "")`. -/
def firstChoiceContent (r : ProviderResponse) : String :=
  ((r.choices.head?).map (fun c => c.content.getD "")).getD ""

/-- The static per-model price table of `_calculate_cost`
(USD per 1M tokens, input/output), with the default fallback pair. -/
def pricingFor (model : String) : Rat × Rat :=
  if model = "anthropic/claude-3.5-sonnet" then (3, 15)
  else if model = "openai/gpt-4-turbo" then (10, 30)
  else if model = "openai/gpt-3.5-turbo" then (1/2, 3/2)
  else if model = "google/gemini-pro" then (1/2, 3/2)
  else if model = "mistralai/mixtral-8x7b-instruct" then (27/100, 27/100)
  else (1, 2)

/-- `OpenRouterService._calculate_cost`. -/
def calculate_cost (model : String) (prompt_tokens completion_tokens : Nat) : Rat :=
  (prompt_tokens : Rat) / 1000000 * (pricingFor model).1 +
    (completion_tokens : Rat) / 1000000 * (pricingFor model).2

/-- The normalized result dict built by `send_chat_request` on success. -/
structure AiResult where
  content : String
  model : String
  prompt_tokens : Nat
  completion_tokens : Nat
  estimated_cost : Rat
deriving DecidableEq, Repr

/-- `OpenRouterService.send_chat_request`: the transport outcome of the
`POST /chat/completions` call is the `transport` argument; a transport
failure, an empty `choices` array, and an empty first-choice content all
raise (become `.error`), otherwise the normalized result is returned. -/
def send_chat_request (transport : Except String ProviderResponse)
    (messages : List ApiMsg) (model : String)
    (max_tokens : Option Nat) (temperature : Rat) : Except String AiResult :=
  match transport with
  | .error e => .error ("OpenRouter chat request failed: " ++ e)
  | .ok r =>
    if r.choices.isEmpty then
      .error "OpenRouter chat request failed: No response choices returned from OpenRouter"
    else if firstChoiceContent r = "" then
      .error "OpenRouter chat request failed: Empty response content from OpenRouter"
    else
      .ok { content := firstChoiceContent r
            model := r.model.getD model
            prompt_tokens := r.prompt_tokens
            completion_tokens := r.completion_tokens
            estimated_cost := calculate_cost model r.prompt_tokens r.completion_tokens }

/-- A raw entry of the provider's `GET /models` list (fields read with
`model.get(..., default)` by `get_available_models`). -/
structure RawModel where
  id : Option String
  name : Option String
  description : Option String
  context_length : Option Nat
deriving DecidableEq, Repr

/-- A formatted catalog entry as produced by `get_available_models` /
`_get_default_models`. -/
structure ModelInfo where
  id : String
  name : String
  description : String
  context_length : Nat
deriving DecidableEq, Repr

/-- The `formatted_model` mapping inside `get_available_models`. -/
def format_model (m : RawModel) : ModelInfo :=
  { id := m.id.getD ""
    name := m.name.getD ""
    description := m.description.getD ""
    context_length := m.context_length.getD 0 }

/-- `OpenRouterService._get_default_models`: the fixed built-in catalog
returned when the upstream call fails. -/
def default_models : List ModelInfo :=
  [ { id := "anthropic/claude-3.5-sonnet"
      name := "Claude 3.5 Sonnet"
      description := "Most intelligent model, best for complex reasoning tasks"
      context_length := 200000 },
    { id := "openai/gpt-4-turbo"
      name := "GPT-4 Turbo"
      description := "OpenAI's most capable model"
      context_length := 128000 },
    { id := "openai/gpt-3.5-turbo"
      name := "GPT-3.5 Turbo"
      description := "Fast and efficient for most tasks"
      context_length := 16385 },
    { id := "google/gemini-pro"
      name := "Gemini Pro"
      description := "Google's advanced AI model"
      context_length := 30720 } ]

/-- `OpenRouterService.get_available_models`: the whole body is wrapped
in `try/except`, and the `except` branch returns `_get_default_models()`
instead of re-raising, so both branches yield a normal (`.ok`) return. -/
def get_available_models (upstream : Except String (List RawModel)) :
    Except String (List ModelInfo) :=
  match upstream with
  | .ok ms => .ok (ms.map format_model)
  | .error _ => .ok default_models

/-- `OpenRouterService.health_check`: call `get_available_models`,
return `True`; any raised exception yields `False`. -/
def health_check (upstream : Except String (List RawModel)) : Bool :=
  match get_available_models upstream with
  | .ok _ => true
  | .error _ => false

/-! ## Pydantic schema layer (`schemas/chatbot.py`) -/

/-- The declared fields of the `ChatRequest` pydantic model
(`schemas/chatbot.py`, `model_config = ConfigDict(extra="forbid")`). -/
def chatRequestFields : List String :=
  ["message", "conversation_id", "model_name", "system_prompt"]

/-- The request attributes the `send_chat_message` handler
(`api/v1/chatbot.py`) actually reads from its `ChatRequest` argument. -/
def handlerRequestReads : List String :=
  ["conversation_id", "message", "timestamp", "system_message", "model",
   "max_tokens", "temperature"]

/-- Pydantic validation of a `/chat` request body under
`extra="forbid"`: every supplied key must be a declared field and the
required `message` field must be present. -/
def chatRequestAccepts (bodyKeys : List String) : Bool :=
  bodyKeys.all (fun k => chatRequestFields.contains k) &&
    chatRequestFields.contains "message" && bodyKeys.contains "message"

/-- The declared (all required) fields of the `ChatResponse` pydantic
model. -/
def chatResponseFields : List String :=
  ["conversation_id", "user_message", "assistant_message",
   "conversation_title", "total_messages", "model_used", "response_time",
   "estimated_cost"]

/-- The keyword arguments the handler passes to the `ChatResponse`
constructor on the success path. -/
def handlerResponseKeys : List String :=
  ["message", "conversation_id", "model", "usage", "response_time",
   "estimated_cost"]

/-! ## Orchestrator — API handlers (`api/v1/chatbot.py`) -/

/-- The error results a handler can produce (`HTTPException` with status
404 / 400, or the catch-all 500 of the `/chat` route). -/
inductive HttpError where
  | notFound (detail : String)
  | badRequest (detail : String)
  | internal (detail : String)
deriving DecidableEq, Repr

/-- The `/chat` request object as validated by the `ChatRequest`
pydantic schema (`schemas/chatbot.py`): exactly the declared fields.
Reading any other attribute from it (`handlerRequestReads` lists the
handler's reads) raises `AttributeError` at runtime, since pydantic v2
models reject undefined attribute access. -/
structure ChatTurnRequest where
  message : String
  conversation_id : Option Nat
  model_name : String
  system_prompt : Option String
deriving DecidableEq, Repr

/-- The `str()` of the `AttributeError` raised by the
`request.timestamp` read in `send_chat_message` (`timestamp` is not a
declared field of `ChatRequest`). -/
def attributeErrorTimestamp : String :=
  "'ChatRequest' object has no attribute 'timestamp'"

/-- The declared fields of the `ChatConversationCreate` pydantic model
(`schemas/chatbot.py`, `extra="forbid"`); the handler passes the
undeclared `user_id` keyword when creating a conversation. -/
def chatConversationCreateFields : List String :=
  ["title", "model_name", "system_prompt"]

/-- The `str()` of the pydantic `ValidationError` raised when
`ChatConversationCreate` receives the undeclared `user_id` keyword
under `extra="forbid"`; the exact text is irrelevant to the claims,
only the fact that the constructor raises before the store create
runs. -/
def validationErrorUserId : String :=
  "1 validation error for ChatConversationCreate: user_id: Extra inputs are not permitted"

/-- The payload the handler's final `ChatResponse(...)` call would
assemble on the success path. -/
structure ChatOk where
  message : String
  conversation_id : Nat
  model : String
  prompt_tokens : Nat
  completion_tokens : Nat
  estimated_cost : Rat
deriving DecidableEq, Repr

/-- Title generation for a fresh conversation:
`title = request.message[:100]`, plus `"..."` when the message is longer
than 100 characters. -/
def mkTitle (message : String) : String :=
  let title := message.take 100
  if message.length > 100 then title ++ "..." else title

/-- The message-list formatting step of `send_chat_message`: the optional
system message first, then the recent history reversed (the store returns
it newest-first), each mapped to `{role, content}`. -/
def build_api_messages (system_message : Option String)
    (recent : List Msg) : List ApiMsg :=
  (match system_message with
   | some s => [{ role := "system", content := s }]
   | none => []) ++
    recent.reverse.map (fun m => { role := m.role.value, content := m.content })

/-- The `POST /chat` handler `send_chat_message` (`api/v1/chatbot.py`).
Without a `conversation_id` it computes the truncated title and then
constructs `ChatConversationCreate(title=..., user_id=...)`; `user_id`
is not a declared field of that schema and its config is
`extra="forbid"`, so pydantic raises a `ValidationError` before
`crud_chat_conversation.create` runs, and the catch-all turns it into a
500 — no conversation is created.  With a `conversation_id` it verifies
existence, ownership and `active` status (404 / 400, before any write);
a turn that passes these checks then builds `user_message_data`, whose
`request.timestamp` read raises `AttributeError` (`timestamp` is not
declared on `ChatRequest`), and the catch-all turns it into a 500 —
before the user message is persisted and before the gateway is
called.  The handler therefore never writes to the database. -/
def send_chat_message (req : ChatTurnRequest) (uid : Nat)
    (transport : Except String ProviderResponse) (db : Db) :
    Except HttpError ChatOk × Db :=
  match req.conversation_id with
  | none =>
    let title := mkTitle req.message
    (.error (.internal ("Chat request failed: " ++ validationErrorUserId)),
      db)
  | some cid =>
    match getConv db cid with
    | none => (.error (.notFound "Conversation not found"), db)
    | some conversation =>
      if conversation.user_id ≠ uid then
        (.error (.notFound "Conversation not found"), db)
      else if conversation.status ≠ ConversationStatus.active then
        (.error (.badRequest "Cannot send message to inactive conversation"), db)
      else
        (.error (.internal ("Chat request failed: " ++ attributeErrorTimestamp)),
          db)

/-- The partial-update payload `ChatConversationUpdate`
(`exclude_unset`: `none` means the field was not sent). -/
structure ConversationUpdate where
  title : Option String
  status : Option ConversationStatus
  system_prompt : Option String
deriving DecidableEq, Repr

/-- Apply a partial update to a conversation row. -/
def applyUpdate (c : Conv) (u : ConversationUpdate) : Conv :=
  { c with
    title := u.title.getD c.title
    status := u.status.getD c.status
    system_prompt :=
      match u.system_prompt with
      | some s => some s
      | none => c.system_prompt }

/-- The `PUT /conversations/{id}` handler `update_conversation`: fetch,
check ownership (404 otherwise), then apply the partial update — note
that no check on the current status is performed. -/
def update_conversation (uid : Nat) (cid : Nat) (u : ConversationUpdate)
    (db : Db) : Except HttpError Conv × Db :=
  match getConv db cid with
  | none => (.error (.notFound "Conversation not found"), db)
  | some existing =>
    if existing.user_id ≠ uid then
      (.error (.notFound "Conversation not found"), db)
    else
      (.ok (applyUpdate existing u),
        setConvFields db cid (fun c => applyUpdate c u))

/-- The `DELETE /conversations/{id}` handler `delete_conversation`:
fetch, check ownership (404 otherwise), then soft-delete by setting
`status := DELETED`. -/
def delete_conversation (uid : Nat) (cid : Nat) (db : Db) :
    Except HttpError Unit × Db :=
  match getConv db cid with
  | none => (.error (.notFound "Conversation not found"), db)
  | some existing =>
    if existing.user_id ≠ uid then
      (.error (.notFound "Conversation not found"), db)
    else
      (.ok (),
        setConvFields db cid (fun c => { c with status := .deleted }))

/-! ## Helper lemmas -/

/-- Looking a row up by primary key commutes with a row transformation
that preserves primary keys. -/
theorem find_id_map (l : List Conv) (cid : Nat) (f : Conv → Conv)
    (hf : ∀ c, (f c).id = c.id) :
    (l.map f).find? (fun c => c.id == cid) =
      (l.find? (fun c => c.id == cid)).map f := by
  induction l with
  | nil => rfl
  | cons c l ih =>
    by_cases h : c.id = cid
    · simp [List.find?_cons, hf c, h]
    · simp [List.find?_cons, hf c, h, ih]

/-- Membership in an `insertDesc` insertion. -/
theorem mem_insertDesc {m y : Msg} {l : List Msg} :
    y ∈ insertDesc m l ↔ y = m ∨ y ∈ l := by
  induction l with
  | nil => simp [insertDesc]
  | cons x xs ih =>
    simp only [insertDesc]
    by_cases h : x.created_at ≤ m.created_at
    · simp [h]
    · simp [h, ih]
      tauto

/-- `insertDesc` preserves the newest-first ordering. -/
theorem pairwise_insertDesc {m : Msg} {l : List Msg}
    (h : l.Pairwise (fun a b => b.created_at ≤ a.created_at)) :
    (insertDesc m l).Pairwise (fun a b => b.created_at ≤ a.created_at) := by
  induction l with
  | nil => simp [insertDesc]
  | cons x xs ih =>
    rcases List.pairwise_cons.mp h with ⟨hx, hxs⟩
    simp only [insertDesc]
    by_cases hcmp : x.created_at ≤ m.created_at
    · simp only [hcmp, if_pos]
      refine List.pairwise_cons.mpr ⟨?_, h⟩
      intro y hy
      rcases List.mem_cons.mp hy with rfl | hy2
      · exact hcmp
      · exact le_trans (hx y hy2) hcmp
    · simp only [hcmp, if_neg, ite_false]
      refine List.pairwise_cons.mpr ⟨?_, ih hxs⟩
      intro y hy
      rcases mem_insertDesc.mp hy with rfl | hy
      · exact Nat.le_of_lt (Nat.lt_of_not_le hcmp)
      · exact hx y hy

/-- `sortDesc` output is ordered newest-first. -/
theorem pairwise_sortDesc (l : List Msg) :
    (sortDesc l).Pairwise (fun a b => b.created_at ≤ a.created_at) := by
  induction l with
  | nil => simp [sortDesc]
  | cons x xs ih => exact pairwise_insertDesc ih

/-- The recent-context window is ordered newest-first. -/
theorem pairwise_recent (db : Db) (cid limit : Nat) :
    (get_recent_context db cid limit).Pairwise
      (fun a b => b.created_at ≤ a.created_at) :=
  (pairwise_sortDesc (convMsgs db cid)).sublist
    (List.take_sublist limit (sortDesc (convMsgs db cid)))

/-- The `/chat` handler never writes: every branch — validation failure
on the create path, 404, 400, and the attribute-error path after the
checks — returns the database unchanged. -/
theorem send_chat_message_state_unchanged (req : ChatTurnRequest)
    (uid : Nat) (transport : Except String ProviderResponse) (db : Db) :
    (send_chat_message req uid transport db).2 = db := by
  cases hreq : req.conversation_id with
  | none => simp [send_chat_message, hreq]
  | some cid =>
    cases hg : getConv db cid with
    | none => simp [send_chat_message, hreq, hg]
    | some c =>
      by_cases h1 : c.user_id ≠ uid
      · simp [send_chat_message, hreq, hg, h1]
      · by_cases h2 : c.status ≠ ConversationStatus.active <;>
          simp [send_chat_message, hreq, hg, h1, h2]

/-- A sample conversation row. -/
def sampleConv (cid uid : Nat) (st : ConversationStatus) : Conv :=
  { id := cid
    user_id := uid
    title := "Hello"
    status := st
    model_name := "anthropic/claude-3.5-sonnet"
    system_prompt := none
    message_count := 0
    last_message_at := none
    updated_at := none }

/-- A one-conversation database owned by user 7. -/
def sampleDb (st : ConversationStatus) : Db :=
  { convs := [sampleConv 1 7 st]
    msgs := []
    next_conv_id := 2
    next_msg_id := 1
    now := 3 }

/-- A sample `/chat` request. -/
def sampleReq (cidOpt : Option Nat) : ChatTurnRequest :=
  { message := "Hello"
    conversation_id := cidOpt
    model_name := "anthropic/claude-3.5-sonnet"
    system_prompt := none }

/-- A provider response with an empty `choices` array. -/
def emptyChoicesResp : ProviderResponse :=
  { model := none
    choices := []
    prompt_tokens := 0
    completion_tokens := 0 }

/-! ## Claim theorems -/

/-- C10: `health_check` returns `True` for every upstream outcome —
`get_available_models` catches every exception and falls back to the
built-in default catalog, so the error branch of `health_check` that
would return `False` is unreachable; on upstream failure the healthy
verdict comes from the fallback catalog, not from upstream
reachability. -/
theorem health_check_always_true :
    (∀ upstream, health_check upstream = true) ∧
      (∀ e, get_available_models (.error e) = .ok default_models) := by
  constructor
  · intro upstream
    cases upstream <;> rfl
  · intro e
    rfl

/-- C2 (code bug): the `/chat` contract is internally inconsistent — the
`ChatRequest` pydantic schema (with `extra="forbid"`) rejects the
`temperature` and `max_tokens` fields the handler docstring advertises
and the handler body reads, the handler reads five attributes
(`model`, `temperature`, `max_tokens`, `system_message`, `timestamp`)
that the schema does not declare, and the handler's success result omits
the required `ChatResponse` fields (`user_message`,
`assistant_message`, `conversation_title`, `total_messages`,
`model_used`) while passing keys (`message`, `model`, `usage`) that the
response schema does not declare. -/
theorem chat_schema_contract_mismatch :
    chatRequestAccepts ["message", "temperature"] = false ∧
      chatRequestAccepts ["message", "max_tokens"] = false ∧
      chatRequestAccepts ["message"] = true ∧
      "temperature" ∉ chatRequestFields ∧
      "max_tokens" ∉ chatRequestFields ∧
      "model" ∉ chatRequestFields ∧
      "system_message" ∉ chatRequestFields ∧
      "timestamp" ∉ chatRequestFields ∧
      "model" ∈ handlerRequestReads ∧
      "temperature" ∈ handlerRequestReads ∧
      "max_tokens" ∈ handlerRequestReads ∧
      "system_message" ∈ handlerRequestReads ∧
      "timestamp" ∈ handlerRequestReads ∧
      "user_message" ∈ chatResponseFields ∧
      "user_message" ∉ handlerResponseKeys ∧
      "assistant_message" ∈ chatResponseFields ∧
      "assistant_message" ∉ handlerResponseKeys ∧
      "model_used" ∈ chatResponseFields ∧
      "model_used" ∉ handlerResponseKeys ∧
      "message" ∈ handlerResponseKeys ∧
      "message" ∉ chatResponseFields := by
  decide

/-- C8: `send_chat_request` fails whenever the provider returns zero
choices or an empty first-choice content, and every success result comes
from a reachable response with a nonempty choice list and nonempty
content — such responses are never returned as success. -/
theorem empty_upstream_response_never_success :
    (∀ (r : ProviderResponse) (ms : List ApiMsg) (model : String)
        (mt : Option Nat) (t : Rat),
        r.choices = [] ∨ firstChoiceContent r = "" →
        (send_chat_request (.ok r) ms model mt t).isOk = false) ∧
      (∀ (tr : Except String ProviderResponse) (ms : List ApiMsg)
          (model : String) (mt : Option Nat) (t : Rat) (res : AiResult),
          send_chat_request tr ms model mt t = .ok res →
          ∃ r, tr = .ok r ∧ r.choices ≠ [] ∧ firstChoiceContent r ≠ "" ∧
            res.content = firstChoiceContent r) := by
  constructor
  · intro r ms model mt t h
    rcases h with h | h
    · simp [send_chat_request, h, Except.isOk, Except.toBool]
    · by_cases hc : r.choices.isEmpty <;>
        simp [send_chat_request, hc, h, Except.isOk, Except.toBool]
  · intro tr ms model mt t res h
    cases tr with
    | error e => simp [send_chat_request] at h
    | ok r =>
      refine ⟨r, rfl, ?_, ?_, ?_⟩ <;>
        by_cases hc : r.choices.isEmpty <;>
          by_cases hct : firstChoiceContent r = "" <;>
            simp_all [send_chat_request, List.isEmpty_iff] <;>
              simp [← h]

/-- Witness for C8 at a concrete empty-`choices` response. -/
theorem empty_upstream_response_never_success_witness :
    (send_chat_request (.ok emptyChoicesResp) []
        "anthropic/claude-3.5-sonnet" none (7/10)).isOk = false :=
  empty_upstream_response_never_success.1 emptyChoicesResp []
    "anthropic/claude-3.5-sonnet" none (7/10) (Or.inl rfl)

/-- C6: the upstream context is the optional system directive first,
followed by the recent-history window (fetched newest-first, at most
`limit` messages) reversed into chronological oldest-first order and
mapped to `{role, content}`; its length is at most `limit` plus one when
the directive is present.  The builder is a pure function of its
inputs. -/
theorem context_builder_shape_and_bound (db : Db) (cid limit : Nat)
    (d : Option String) :
    (build_api_messages d (get_recent_context db cid limit)).length ≤
        limit + (if d.isSome then 1 else 0) ∧
      build_api_messages d (get_recent_context db cid limit) =
        (match d with
         | some s => [{ role := "system", content := s }]
         | none => []) ++
          (get_recent_context db cid limit).reverse.map
            (fun m => { role := m.role.value, content := m.content }) ∧
      (get_recent_context db cid limit).reverse.Pairwise
        (fun a b => a.created_at ≤ b.created_at) := by
  have hlen : (get_recent_context db cid limit).length ≤ limit := by
    simp [get_recent_context, List.length_take]
  refine ⟨?_, rfl, ?_⟩
  · cases d <;> simp [build_api_messages] <;> omega
  · exact List.pairwise_reverse.mpr (pairwise_recent db cid limit)

/-- C5: a chat turn referencing an existing conversation whose status is
not `active` fails with the bad-request error before any write: the
database is returned unchanged, so zero messages are written and the
conversation aggregates are untouched. -/
theorem inactive_conversation_rejected_before_writes
    (req : ChatTurnRequest) (uid : Nat)
    (transport : Except String ProviderResponse) (db : Db)
    (cid : Nat) (conv : Conv)
    (href : req.conversation_id = some cid)
    (hget : getConv db cid = some conv)
    (hown : conv.user_id = uid)
    (hstatus : conv.status ≠ ConversationStatus.active) :
    send_chat_message req uid transport db =
      (.error (.badRequest "Cannot send message to inactive conversation"),
        db) := by
  simp [send_chat_message, href, hget, hown, hstatus]

/-- Witness for C5: a chat turn against an archived conversation. -/
theorem inactive_conversation_rejected_before_writes_witness :
    send_chat_message (sampleReq (some 1)) 7 (.ok emptyChoicesResp)
        (sampleDb .archived) =
      (.error (.badRequest "Cannot send message to inactive conversation"),
        sampleDb .archived) :=
  inactive_conversation_rejected_before_writes (sampleReq (some 1)) 7
    (.ok emptyChoicesResp) (sampleDb .archived) 1 (sampleConv 1 7 .archived)
    rfl rfl rfl (by decide)

/-- C4 (code bug): every chat turn that passes the resolution checks
(existing, owned, active conversation) aborts with the catch-all 500
carrying the `AttributeError` from the `request.timestamp` read —
`timestamp` is not a declared `ChatRequest` field — before the user
message is persisted and before the gateway is called: the database is
returned unchanged, so in the program no turn ever holds an
already-persisted user message when the gateway fails, and the
situation the claim describes is unreachable. -/
theorem chat_turn_aborts_before_persisting_user_message
    (req : ChatTurnRequest) (uid : Nat)
    (transport : Except String ProviderResponse) (db : Db)
    (cid : Nat) (conv : Conv)
    (href : req.conversation_id = some cid)
    (hget : getConv db cid = some conv)
    (hown : conv.user_id = uid)
    (hactive : conv.status = ConversationStatus.active) :
    send_chat_message req uid transport db =
      (.error (.internal ("Chat request failed: " ++ attributeErrorTimestamp)),
        db) := by
  simp [send_chat_message, href, hget, hown, hactive]

/-- Witness for C4: a turn against an owned active conversation with the
gateway reachable still aborts with the attribute-error 500 and writes
nothing. -/
theorem chat_turn_aborts_before_persisting_user_message_witness :
    send_chat_message (sampleReq (some 1)) 7 (.ok emptyChoicesResp)
        (sampleDb .active) =
      (.error (.internal ("Chat request failed: " ++ attributeErrorTimestamp)),
        sampleDb .active) :=
  chat_turn_aborts_before_persisting_user_message (sampleReq (some 1)) 7
    (.ok emptyChoicesResp) (sampleDb .active) 1 (sampleConv 1 7 .active)
    rfl rfl rfl rfl

/-- C7 (code bug): the handler computes the truncated title exactly as
the claim states (first 100 characters, plus "..." iff the message is
longer), but the turn then constructs `ChatConversationCreate` with the
undeclared `user_id` keyword, which pydantic rejects under
`extra="forbid"` before the store create runs: the turn returns the
catch-all 500 with the conversation table unchanged, so no conversation
is ever created on this path. -/
theorem new_conversation_path_aborts_with_validation_error
    (req : ChatTurnRequest) (uid : Nat)
    (transport : Except String ProviderResponse) (db : Db)
    (href : req.conversation_id = none) :
    send_chat_message req uid transport db =
        (.error (.internal ("Chat request failed: " ++ validationErrorUserId)),
          db) ∧
      (send_chat_message req uid transport db).2.convs = db.convs ∧
      "user_id" ∉ chatConversationCreateFields ∧
      mkTitle req.message = req.message.take 100 ++
        (if req.message.length > 100 then "..." else "") := by
  refine ⟨?_, ?_, by decide, ?_⟩
  · simp [send_chat_message, href]
  · simp [send_chat_message, href]
  · unfold mkTitle
    split <;> simp [String.append_empty]

/-- Witness for C7: message "Hello", no conversation reference — the
turn 500s and the conversation table is unchanged. -/
theorem new_conversation_path_aborts_with_validation_error_witness :
    send_chat_message (sampleReq none) 7 (.ok emptyChoicesResp)
          (sampleDb .active) =
        (.error (.internal ("Chat request failed: " ++ validationErrorUserId)),
          sampleDb .active) ∧
      (send_chat_message (sampleReq none) 7 (.ok emptyChoicesResp)
          (sampleDb .active)).2.convs = (sampleDb .active).convs ∧
      "user_id" ∉ chatConversationCreateFields ∧
      mkTitle "Hello" = "Hello".take 100 ++
        (if "Hello".length > 100 then "..." else "") :=
  new_conversation_path_aborts_with_validation_error (sampleReq none) 7
    (.ok emptyChoicesResp) (sampleDb .active) rfl

/-- C9 counterexample: `update_conversation` checks only ownership, so
the owner of a deleted conversation can set its status back to
`active` — the deleted status is not terminal. -/
theorem deleted_conversation_reactivated_by_update :
    (getConv (sampleDb .deleted) 1).map (fun c => c.status) =
        some ConversationStatus.deleted ∧
      (getConv (update_conversation 7 1
            { title := none, status := some .active, system_prompt := none }
            (sampleDb .deleted)).2 1).map (fun c => c.status) =
        some ConversationStatus.active := by
  refine ⟨?_, ?_⟩ <;> decide

/-- C9 (amended): neither `delete_conversation` nor a chat turn moves a
conversation out of the deleted status, but `update_conversation`
applies any requested status to a deleted conversation owned by the
caller, so deleted → active/archived is reachable through the update
operation. -/
theorem deleted_status_transitions (db : Db) (uid cid : Nat) (conv : Conv)
    (u : ConversationUpdate) (s : ConversationStatus)
    (req : ChatTurnRequest) (transport : Except String ProviderResponse)
    (hget : getConv db cid = some conv)
    (hdel : conv.status = ConversationStatus.deleted) :
    (conv.user_id = uid → u.status = some s →
      (getConv (update_conversation uid cid u db).2 cid).map
          (fun c => c.status) = some s) ∧
      ((getConv (delete_conversation uid cid db).2 cid).map
          (fun c => c.status) = some ConversationStatus.deleted) ∧
      (cid ≠ db.next_conv_id →
        (getConv (send_chat_message req uid transport db).2 cid).map
            (fun c => c.status) = some ConversationStatus.deleted) := by
  have hcid : conv.id = cid := by simpa using List.find?_some hget
  have hupd := find_id_map db.convs cid
    (fun c => if c.id == cid then applyUpdate c u else c)
    (fun c => by by_cases hc : c.id = cid <;> simp [hc, applyUpdate])
  have hdelmap := find_id_map db.convs cid
    (fun c => if c.id == cid then { c with status := .deleted } else c)
    (fun c => by by_cases hc : c.id = cid <;> simp [hc])
  refine ⟨?_, ?_, ?_⟩
  · intro hu hs
    unfold update_conversation
    simp only [hget, hu, ne_eq, not_true_eq_false, ite_false, if_false]
    unfold setConvFields getConv
    rw [hupd]
    unfold getConv at hget
    rw [hget]
    simp [hcid, applyUpdate, hs]
  · unfold delete_conversation
    simp only [hget]
    by_cases hu : conv.user_id = uid
    · simp only [hu, ne_eq, not_true_eq_false, ite_false, if_false]
      unfold setConvFields getConv
      rw [hdelmap]
      unfold getConv at hget
      rw [hget]
      simp [hcid]
    · simp only [ne_eq, hu, not_false_eq_true, ite_true, if_true]
      rw [hget]
      simp [hdel]
  · intro hne
    rw [send_chat_message_state_unchanged, hget]
    simp [hdel]

/-- Witness for C9: user 7's deleted conversation is reactivated by an
update requesting `active`, while delete and a chat turn leave it
deleted. -/
theorem deleted_status_transitions_witness :
    ((getConv (update_conversation 7 1
          { title := none, status := some .archived, system_prompt := none }
          (sampleDb .deleted)).2 1).map (fun c => c.status) =
        some ConversationStatus.archived) ∧
      ((getConv (delete_conversation 7 1 (sampleDb .deleted)).2 1).map
          (fun c => c.status) = some ConversationStatus.deleted) ∧
      ((getConv (send_chat_message (sampleReq (some 1)) 7
            (.ok emptyChoicesResp) (sampleDb .deleted)).2 1).map
          (fun c => c.status) = some ConversationStatus.deleted) := by
  have h := deleted_status_transitions (sampleDb .deleted) 7 1
    (sampleConv 1 7 .deleted)
    { title := none, status := some .archived, system_prompt := none }
    .archived (sampleReq (some 1)) (.ok emptyChoicesResp) rfl rfl
  exact ⟨h.1 rfl rfl, h.2.1, h.2.2 (by decide)⟩

end Chatbot
